import Mathlib

/-!
Shallow embedding of the AppFlowy-Cloud embedding-indexing scheduler
(`services/appflowy-collaborate/src/indexer/indexer_scheduler.rs` and
`services/appflowy-collaborate/src/indexer/provider.rs`).

External collaborators (uuid parsing, CRDT decode, the database upsert,
the workspace-settings query, storage fetch) are modelled as an explicit
environment of pure functions; the embedding capability (the
`DocumentIndexer`, which lives outside the provided sources) is modelled
as a record of fallible functions.  Each scheduler entry point is
translated to a pure function returning its caller-visible result
together with the trace of persistence (upsert) calls the full execution
performs, including work done inside spawned closures.
-/

namespace AppFlowyIndexer

/-- Document type tags, from `collab_entity::CollabType` as matched in the
scheduler sources. -/
inductive CollabType
  | Document
  | Database
  | WorkspaceDatabase
  | Folder
  | DatabaseRow
  | UserAwareness
  | Unknown
deriving DecidableEq, Repr

/-- Workspace identifiers after successful uuid parsing. -/
abbrev Uuid := Nat

/-- Raw (unparsed) workspace identifier handed to the scheduler API. -/
abbrev RawWorkspaceId := Nat

/-- Object identifiers of collab documents. -/
abbrev ObjectId := Nat

/-- Opaque encoded byte payloads. -/
abbrev Bytes := List Nat

/-- Opaque decoded collab document handle (`collab::preclude::Collab`). -/
abbrev Collab := Nat

/-- Error values (`app_error::AppError`) as far as the scheduler
distinguishes them. -/
inductive AppError
  | invalidUuid
  | noIndexerFound (t : CollabType)
  | internalCollab
  | embedFailedNone
  | external (code : Nat)
deriving DecidableEq, Repr

/-- One embedded content chunk (`AFCollabEmbeddedContent`): it carries its
owning object id plus an opaque payload. -/
structure AFCollabEmbeddedContent where
  object_id : ObjectId
  fragment : Nat
deriving DecidableEq, Repr

/-- Result of an embedding computation (`AFCollabEmbeddings`). -/
structure AFCollabEmbeddings where
  tokens_consumed : Nat
  params : List AFCollabEmbeddedContent
deriving DecidableEq, Repr

/-- Encoded collab snapshot (`collab::entity::EncodedCollab`); only its
`doc_state` is consumed by the scheduler. -/
structure EncodedCollab where
  doc_state : Bytes
deriving DecidableEq, Repr

/-- Per-workspace settings row; the scheduler reads only the
`disable_search_indexing` flag. -/
structure AFWorkspaceSettings where
  disable_search_indexing : Bool
deriving DecidableEq, Repr

/-- A record from `get_collabs_without_embeddings`. -/
structure CollabId where
  workspace_id : Uuid
  object_id : ObjectId
  collab_type : CollabType
deriving DecidableEq, Repr

/-- Input of the encoded entry points (`IndexedCollab`). -/
structure IndexedCollab where
  object_id : ObjectId
  collab_type : CollabType
  encoded_collab : Bytes
deriving DecidableEq, Repr

/-- A backlog document yielded by the catch-up stream (`UnindexedCollab`). -/
structure UnindexedCollab where
  workspace_id : Uuid
  object_id : ObjectId
  collab_type : CollabType
  collab : EncodedCollab
deriving DecidableEq, Repr

/-- The embedding capability consumed by the scheduler
(`create_embedded_content`, `embed`, `embed_in_thread_pool`).  Its
implementation (the `DocumentIndexer`) is an external collaborator. -/
structure Indexer where
  create_embedded_content : Collab → Except AppError (List AFCollabEmbeddedContent)
  embed : List AFCollabEmbeddedContent → Except AppError (Option AFCollabEmbeddings)
  embed_in_thread_pool : List AFCollabEmbeddedContent → Except AppError (Option AFCollabEmbeddings)

/-- Modelled from the spec: the contract of the embedding computation
(the `DocumentIndexer` implementation is not among the provided sources).
The spec states that `embeddings(content)` returns none when the content
is empty, and that an `EmbeddingOutcome` carries the mapping-content list
derived from the (necessarily non-empty) input chunks, so a present
outcome has at least one content chunk. -/
def Indexer.spec_embed_contract (ix : Indexer) : Prop :=
  (∀ cs e, ix.embed cs = Except.ok (some e) → e.params ≠ []) ∧
  (∀ cs e, ix.embed_in_thread_pool cs = Except.ok (some e) → e.params ≠ []) ∧
  ix.embed [] = Except.ok none ∧
  ix.embed_in_thread_pool [] = Except.ok none

/-- External collaborators of the scheduler, as pure functions. -/
structure Env where
  parse_uuid : RawWorkspaceId → Option Uuid
  decode_from_bytes : Bytes → Option EncodedCollab
  new_with_source : ObjectId → Bytes → Option Collab
  get_encode_collab : CollabId → Except AppError EncodedCollab
  upsert_collab_embeddings : Uuid → ObjectId → Nat → List AFCollabEmbeddedContent → Except AppError Unit
  select_workspace_settings : Uuid → Except AppError (Option AFWorkspaceSettings)

/-- The indexer registry (`IndexerProvider`): a mapping from collab type
to indexer, built once at construction. -/
structure IndexerProvider where
  indexer_cache : List (CollabType × Indexer)

/-- Construction of the registry (`IndexerProvider::new`): when the
global enable flag is false the mapping stays empty; when true the
single `Document → DocumentIndexer` entry is inserted. -/
def IndexerProvider.new (enabled : Bool) (document_indexer : Indexer) : IndexerProvider :=
  { indexer_cache := if enabled then [(CollabType.Document, document_indexer)] else [] }

/-- Registry lookup (`IndexerProvider::indexer_for`). -/
def IndexerProvider.indexer_for (p : IndexerProvider) (t : CollabType) : Option Indexer :=
  (p.indexer_cache.find? (fun kv => kv.1 == t)).map Prod.snd

/-- One attempted persistence call (`upsert_collab_embeddings` invocation). -/
structure UpsertCall where
  workspace_id : Uuid
  object_id : ObjectId
  tokens_used : Nat
  contents : List AFCollabEmbeddedContent
deriving DecidableEq, Repr

/-- Caller-visible result of a scheduler entry point paired with the
trace of persistence calls the whole execution (spawned work included)
performs. -/
structure SchedOutput where
  result : Except AppError Unit
  upserts : List UpsertCall
deriving Repr

/-- The shared per-document pipeline of the encoded entry points
(`process_collab`): indexer lookup, decode of the byte payload,
reconstruction of the collab, content extraction, embedding; any failure
or absent outcome collapses to none. -/
def process_collab (env : Env) (prov : IndexerProvider) (ic : IndexedCollab) :
    Option (Nat × List AFCollabEmbeddedContent) :=
  match prov.indexer_for ic.collab_type with
  | none => none
  | some indexer =>
    match env.decode_from_bytes ic.encoded_collab with
    | none => none
    | some ec =>
      match env.new_with_source ic.object_id ec.doc_state with
      | none => none
      | some collab =>
        match indexer.create_embedded_content collab with
        | Except.error _ => none
        | Except.ok params =>
          match indexer.embed params with
          | Except.error _ => none
          | Except.ok none => none
          | Except.ok (some e) => some (e.tokens_consumed, e.params)

/-- Fire-and-forget single submission (`IndexerScheduler::index_encoded_collab_one`).
After a successful uuid parse the caller always receives success; the
spawned closure runs `process_collab` and, when it yields an outcome,
attempts the upsert (whose failure is only logged). -/
def index_encoded_collab_one (env : Env) (prov : IndexerProvider)
    (workspace_id : RawWorkspaceId) (indexed_collab : IndexedCollab) : SchedOutput :=
  match env.parse_uuid workspace_id with
  | none => ⟨Except.error AppError.invalidUuid, []⟩
  | some wid =>
    match process_collab env prov indexed_collab with
    | some (tokens_used, content) =>
      ⟨Except.ok (), [⟨wid, indexed_collab.object_id, tokens_used, content⟩]⟩
    | none => ⟨Except.ok (), []⟩

/-- Batched fire-and-forget submission (`IndexerScheduler::index_encoded_collabs`).
`pool_fault` models `threads.install` returning an error (the whole
batch is then logged once and dropped).  Otherwise each computed outcome
with a non-empty content list is upserted, keyed by the first chunk's
object id; upsert failures are only logged. -/
def index_encoded_collabs (env : Env) (pool_fault : Bool) (prov : IndexerProvider)
    (workspace_id : RawWorkspaceId) (indexed_collabs : List IndexedCollab) : SchedOutput :=
  match env.parse_uuid workspace_id with
  | none => ⟨Except.error AppError.invalidUuid, []⟩
  | some wid =>
    if pool_fault then ⟨Except.ok (), []⟩
    else
      let embeddings_list := indexed_collabs.filterMap (process_collab env prov)
      ⟨Except.ok (), embeddings_list.filterMap (fun p =>
        match p.2 with
        | [] => none
        | c :: cs => some ⟨wid, c.object_id, p.1, c :: cs⟩)⟩

/-- The compute closure spawned by `index_collab`.  The source calls
`.unwrap()` on the result of `embed_in_thread_pool`, so an error there
aborts the closure abnormally (a panic), dropping the completion sender:
modelled as none.  An absent outcome is mapped to an internal error and
sent; a present outcome is sent as success. -/
def index_collab_compute (ix : Indexer) (contents : List AFCollabEmbeddedContent) :
    Option (Except AppError AFCollabEmbeddings) :=
  match ix.embed_in_thread_pool contents with
  | Except.error _ => none
  | Except.ok none => some (Except.error AppError.embedFailedNone)
  | Except.ok (some e) => some (Except.ok e)

/-- Synchronous session indexing (`IndexerScheduler::index_collab`).
Uuid parse failure, a missing indexer and a content-extraction failure
propagate; after the compute closure is spawned the caller awaits the
completion channel and, on a successful outcome, awaits the upsert
(whose failure propagates).  A computed failure received on the channel
is logged and the call still returns success; a dropped sender (the
closure panicked) is logged as a lost result and the call also returns
success. -/
def index_collab (env : Env) (prov : IndexerProvider) (workspace_id : RawWorkspaceId)
    (object_id : ObjectId) (collab : Collab) (collab_type : CollabType) : SchedOutput :=
  match env.parse_uuid workspace_id with
  | none => ⟨Except.error AppError.invalidUuid, []⟩
  | some wid =>
    match prov.indexer_for collab_type with
    | none => ⟨Except.error (AppError.noIndexerFound collab_type), []⟩
    | some indexer =>
      match indexer.create_embedded_content collab with
      | Except.error e => ⟨Except.error e, []⟩
      | Except.ok contents =>
        match index_collab_compute indexer contents with
        | some (Except.ok embeddings) =>
          match env.upsert_collab_embeddings wid object_id embeddings.tokens_consumed embeddings.params with
          | Except.ok _ =>
            ⟨Except.ok (), [⟨wid, object_id, embeddings.tokens_consumed, embeddings.params⟩]⟩
          | Except.error e =>
            ⟨Except.error e, [⟨wid, object_id, embeddings.tokens_consumed, embeddings.params⟩]⟩
        | some (Except.error _) => ⟨Except.ok (), []⟩
        | none => ⟨Except.ok (), []⟩

/-- Workspace permission check on the scheduler
(`IndexerScheduler::can_index_workspace`). -/
def IndexerScheduler.can_index_workspace (env : Env) (workspace_id : RawWorkspaceId) :
    Except AppError Bool :=
  match env.parse_uuid workspace_id with
  | none => Except.error AppError.invalidUuid
  | some uuid =>
    match env.select_workspace_settings uuid with
    | Except.error e => Except.error e
    | Except.ok none => Except.ok true
    | Except.ok (some settings) => Except.ok (!settings.disable_search_indexing)

/-- Workspace permission check duplicated on the registry
(`IndexerProvider::can_index_workspace`), textually the same logic. -/
def IndexerProvider.can_index_workspace (env : Env) (workspace_id : RawWorkspaceId) :
    Except AppError Bool :=
  match env.parse_uuid workspace_id with
  | none => Except.error AppError.invalidUuid
  | some uuid =>
    match env.select_workspace_settings uuid with
    | Except.error e => Except.error e
    | Except.ok none => Except.ok true
    | Except.ok (some settings) => Except.ok (!settings.disable_search_indexing)

/-- The compute closure spawned by `index_unindexd_collab` for a backlog
document: reconstruct the collab (failure mapped to an internal error),
extract content, run the pool-confined embedding; every step's error is
returned through the completion channel as a value (no `.unwrap()` on
this path, so the closure never aborts abnormally and the sender is
always used). -/
def index_unindexd_compute (env : Env) (ix : Indexer) (unindexed : UnindexedCollab) :
    Except AppError (Option AFCollabEmbeddings) :=
  match env.new_with_source unindexed.object_id unindexed.collab.doc_state with
  | none => Except.error AppError.internalCollab
  | some collab =>
    match ix.create_embedded_content collab with
    | Except.error e => Except.error e
    | Except.ok params => ix.embed_in_thread_pool params

/-- Per-document step of the catch-up sweep (`index_unindexd_collab`).
A missing indexer is a silent success; a computed failure and an absent
outcome are logged and the step still returns success; only the awaited
upsert failure propagates as an error. -/
def index_unindexd_collab (env : Env) (prov : IndexerProvider)
    (unindexed : UnindexedCollab) : SchedOutput :=
  match prov.indexer_for unindexed.collab_type with
  | none => ⟨Except.ok (), []⟩
  | some indexer =>
    match index_unindexd_compute env indexer unindexed with
    | Except.ok (some embeddings) =>
      match env.upsert_collab_embeddings unindexed.workspace_id unindexed.object_id
          embeddings.tokens_consumed embeddings.params with
      | Except.ok _ =>
        ⟨Except.ok (),
          [⟨unindexed.workspace_id, unindexed.object_id, embeddings.tokens_consumed,
            embeddings.params⟩]⟩
      | Except.error e =>
        ⟨Except.error e,
          [⟨unindexed.workspace_id, unindexed.object_id, embeddings.tokens_consumed,
            embeddings.params⟩]⟩
    | Except.ok none => ⟨Except.ok (), []⟩
    | Except.error _ => ⟨Except.ok (), []⟩

/-- Body of the stream produced by `get_unindexed_collabs`, iterating the
backlog records: a `Document` record has its encoded state fetched (a
fetch failure is emitted as the stream's final error item, ending the
stream, as `?` does inside the generator); every other type is skipped
without any fetch.  Returns the stream items together with the trace of
fetch attempts. -/
def gen_unindexed (fetch : CollabId → Except AppError EncodedCollab) :
    List CollabId → List (Except AppError UnindexedCollab) × List CollabId
  | [] => ([], [])
  | cid :: rest =>
    match cid.collab_type with
    | CollabType.Document =>
      match fetch cid with
      | Except.error e => ([Except.error e], [cid])
      | Except.ok ec =>
        let tail := gen_unindexed fetch rest
        (Except.ok ⟨cid.workspace_id, cid.object_id, cid.collab_type, ec⟩ :: tail.1,
          cid :: tail.2)
    | CollabType.Database
    | CollabType.WorkspaceDatabase
    | CollabType.Folder
    | CollabType.DatabaseRow
    | CollabType.UserAwareness
    | CollabType.Unknown => gen_unindexed fetch rest

/-- The backlog stream (`get_unindexed_collabs`): a failure of the
initial `get_collabs_without_embeddings` query is the stream's only
item; otherwise the generator body runs over the returned records. -/
def get_unindexed_collabs (env : Env) (db_result : Except AppError (List CollabId)) :
    List (Except AppError UnindexedCollab) × List CollabId :=
  match db_result with
  | Except.error e => ([Except.error e], [])
  | Except.ok collabs => gen_unindexed env.get_encode_collab collabs

/-- The drain loop of `handle_unindexed_collabs` over the stream items:
a yielded document is handled by `index_unindexd_collab` and counted
when that step returns success; stream error items are logged and not
counted.  Returns the final count and the accumulated upsert trace. -/
def sweep_items (env : Env) (prov : IndexerProvider) :
    List (Except AppError UnindexedCollab) → Nat × List UpsertCall
  | [] => (0, [])
  | item :: rest =>
    let tail := sweep_items env prov rest
    match item with
    | Except.ok collab =>
      let out := index_unindexd_collab env prov collab
      match out.result with
      | Except.ok _ => (tail.1 + 1, out.upserts ++ tail.2)
      | Except.error _ => (tail.1, out.upserts ++ tail.2)
    | Except.error _ => tail

/-- The catch-up sweep (`handle_unindexed_collabs`): drain the backlog
stream and report the count logged in the final summary observation. -/
def handle_unindexed_collabs (env : Env) (prov : IndexerProvider)
    (db_result : Except AppError (List CollabId)) : Nat × List UpsertCall :=
  sweep_items env prov (get_unindexed_collabs env db_result).1

/-- Does the sweep's per-document step lose the document to a failing
persistence call?  This is the only way `index_unindexd_collab` returns
an error. -/
def sweep_persist_failed (env : Env) (prov : IndexerProvider) (c : UnindexedCollab) : Bool :=
  match prov.indexer_for c.collab_type with
  | none => false
  | some ix =>
    match index_unindexd_compute env ix c with
    | Except.ok (some e) =>
      match env.upsert_collab_embeddings c.workspace_id c.object_id e.tokens_consumed e.params with
      | Except.error _ => true
      | Except.ok _ => false
    | _ => false

/-! Concrete fixtures used by witnesses and counterexamples. -/

/-- A sample content chunk whose owning object id (7) differs from the
object ids of the sample documents below. -/
def chunkA : AFCollabEmbeddedContent := ⟨7, 100⟩

/-- A sample embedding function conforming to the spec contract: none on
empty content, otherwise an outcome carrying the input chunks. -/
def sampleEmbedFn (cs : List AFCollabEmbeddedContent) :
    Except AppError (Option AFCollabEmbeddings) :=
  match cs with
  | [] => Except.ok none
  | c :: cs2 => Except.ok (some ⟨5, c :: cs2⟩)

/-- An indexer whose every step succeeds. -/
def okIndexer : Indexer where
  create_embedded_content := fun _ => Except.ok [chunkA]
  embed := sampleEmbedFn
  embed_in_thread_pool := sampleEmbedFn

/-- An indexer whose embedding computation always fails. -/
def failEmbedIndexer : Indexer where
  create_embedded_content := fun _ => Except.ok [chunkA]
  embed := fun _ => Except.error (AppError.external 1)
  embed_in_thread_pool := fun _ => Except.error (AppError.external 1)

/-- An indexer that extracts no content chunks from any document. -/
def emptyContentIndexer : Indexer where
  create_embedded_content := fun _ => Except.ok []
  embed := sampleEmbedFn
  embed_in_thread_pool := sampleEmbedFn

/-- A sample environment: workspace ids below 100 parse to themselves,
decoding and collab reconstruction always succeed, storage returns a
one-byte state, the upsert succeeds, and only workspace 0 lacks a
settings row. -/
def envA : Env where
  parse_uuid := fun w => if w < 100 then some w else none
  decode_from_bytes := fun bs => some ⟨bs⟩
  new_with_source := fun oid bs => some (oid + bs.length)
  get_encode_collab := fun cid => Except.ok ⟨[cid.object_id]⟩
  upsert_collab_embeddings := fun _ _ _ _ => Except.ok ()
  select_workspace_settings := fun u =>
    if u == 0 then Except.ok none else Except.ok (some ⟨true⟩)

def provA : IndexerProvider := IndexerProvider.new true okIndexer

def provFail : IndexerProvider := IndexerProvider.new true failEmbedIndexer

def provEmpty : IndexerProvider := IndexerProvider.new true emptyContentIndexer

def icA : IndexedCollab := ⟨3, CollabType.Document, [1]⟩

def icFolder : IndexedCollab := ⟨4, CollabType.Folder, [1]⟩

def cidA : CollabId := ⟨0, 3, CollabType.Document⟩

def cidFolder : CollabId := ⟨0, 4, CollabType.Folder⟩

def ucA : UnindexedCollab := ⟨0, 3, CollabType.Document, ⟨[3]⟩⟩

def ucFolder : UnindexedCollab := ⟨0, 4, CollabType.Folder, ⟨[4]⟩⟩

/-! Helper lemmas shared between claims. -/

theorem sampleEmbedFn_params_nonempty (cs : List AFCollabEmbeddedContent)
    (e : AFCollabEmbeddings) (h : sampleEmbedFn cs = Except.ok (some e)) :
    e.params ≠ [] := by
  cases cs with
  | nil => simp [sampleEmbedFn] at h
  | cons c cs2 =>
    simp [sampleEmbedFn] at h
    rw [← h]
    simp

theorem okIndexer_contract : okIndexer.spec_embed_contract :=
  ⟨fun cs e h => sampleEmbedFn_params_nonempty cs e h,
   fun cs e h => sampleEmbedFn_params_nonempty cs e h, rfl, rfl⟩

theorem emptyContentIndexer_contract : emptyContentIndexer.spec_embed_contract :=
  ⟨fun cs e h => sampleEmbedFn_params_nonempty cs e h,
   fun cs e h => sampleEmbedFn_params_nonempty cs e h, rfl, rfl⟩

theorem provA_contract (t : CollabType) (ix : Indexer)
    (h : provA.indexer_for t = some ix) : ix.spec_embed_contract := by
  cases t <;> simp [provA, IndexerProvider.indexer_for, IndexerProvider.new] at h
  rw [← h]
  exact okIndexer_contract

theorem provEmpty_contract (t : CollabType) (ix : Indexer)
    (h : provEmpty.indexer_for t = some ix) : ix.spec_embed_contract := by
  cases t <;> simp [provEmpty, IndexerProvider.indexer_for, IndexerProvider.new] at h
  rw [← h]
  exact emptyContentIndexer_contract

/-! Claim theorems. -/

/-- C5: for every workspace id that parses, both the scheduler's and the
registry's `can_index_workspace` agree; they return true when no
settings row exists and the negation of the disable-search-indexing
flag when a row exists, so an absent row behaves like an explicit
enabled setting. -/
theorem can_index_workspace_spec (env : Env) (w : RawWorkspaceId) (u : Uuid)
    (hp : env.parse_uuid w = some u) :
    IndexerScheduler.can_index_workspace env w = IndexerProvider.can_index_workspace env w ∧
    (env.select_workspace_settings u = Except.ok none →
      IndexerScheduler.can_index_workspace env w = Except.ok true ∧
      IndexerProvider.can_index_workspace env w = Except.ok true) ∧
    (∀ s, env.select_workspace_settings u = Except.ok (some s) →
      IndexerScheduler.can_index_workspace env w = Except.ok (!s.disable_search_indexing) ∧
      IndexerProvider.can_index_workspace env w = Except.ok (!s.disable_search_indexing)) := by
  refine ⟨rfl, ?_, ?_⟩
  · intro h
    refine ⟨?_, ?_⟩
    · unfold IndexerScheduler.can_index_workspace
      simp [hp, h]
    · unfold IndexerProvider.can_index_workspace
      simp [hp, h]
  · intro s h
    refine ⟨?_, ?_⟩
    · unfold IndexerScheduler.can_index_workspace
      simp [hp, h]
    · unfold IndexerProvider.can_index_workspace
      simp [hp, h]

/-- Witness for C5 at the sample environment: workspace 0 parses and has
no settings row, so the scheduler's check returns true. -/
theorem can_index_workspace_spec_witness :
    IndexerScheduler.can_index_workspace envA 0 = Except.ok true :=
  ((can_index_workspace_spec envA 0 0 rfl).2.1 rfl).1

/-- C6: constructing the registry with the global indexing flag false
leaves the type-to-indexer mapping empty and makes `indexer_for` return
none for every document type, including the Document type that the
enabled registry supports. -/
theorem disabled_flag_empty_registry (document_indexer : Indexer) :
    (IndexerProvider.new false document_indexer).indexer_cache = [] ∧
    (∀ t, (IndexerProvider.new false document_indexer).indexer_for t = none) ∧
    (IndexerProvider.new true document_indexer).indexer_for CollabType.Document =
      some document_indexer :=
  ⟨rfl, fun _ => rfl, rfl⟩

/-- C1 counterexample: with a well-formed workspace id (0) and the
registered Document indexer, the embedding computation step fails
(`embed_in_thread_pool` returns an error), yet `index_collab` returns
success and persists nothing — the computation failure is not propagated
to the caller. -/
theorem index_collab_swallows_compute_failure :
    failEmbedIndexer.embed_in_thread_pool [chunkA] = Except.error (AppError.external 1) ∧
    index_collab envA provFail 0 3 9 CollabType.Document = ⟨Except.ok (), []⟩ :=
  ⟨rfl, rfl⟩

/-- C1 amended: on the synchronous session path, when the workspace id
parses, an indexer is registered and content extraction succeeds, a
failing embedding computation (any outcome of the compute closure other
than a successful embedding) is logged and `index_collab` still returns
success with no persistence call; only validation, missing-indexer,
extraction and persistence failures propagate. -/
theorem index_collab_compute_failure_not_propagated (env : Env) (prov : IndexerProvider)
    (w : RawWorkspaceId) (oid : ObjectId) (collab : Collab) (t : CollabType)
    (u : Uuid) (ix : Indexer) (contents : List AFCollabEmbeddedContent)
    (hp : env.parse_uuid w = some u)
    (hix : prov.indexer_for t = some ix)
    (hc : ix.create_embedded_content collab = Except.ok contents)
    (hfail : ∀ e, index_collab_compute ix contents ≠ some (Except.ok e)) :
    index_collab env prov w oid collab t = ⟨Except.ok (), []⟩ := by
  unfold index_collab
  simp only [hp, hix, hc]
  cases hcc : index_collab_compute ix contents with
  | none => rfl
  | some r =>
    cases r with
    | ok e => exact absurd hcc (hfail e)
    | error e => rfl

/-- Witness for C1's amended theorem at a concrete input where the
embedding computation fails with an error. -/
theorem index_collab_compute_failure_not_propagated_witness :
    index_collab envA provFail 0 3 9 CollabType.Document = ⟨Except.ok (), []⟩ :=
  index_collab_compute_failure_not_propagated envA provFail 0 3 9 CollabType.Document 0
    failEmbedIndexer [chunkA] rfl rfl rfl (fun _ h => Option.noConfusion h)

/-- C2: when `embed_in_thread_pool` reports a pool-level fault (an
error), the compute closure of `index_collab` aborts abnormally — the
`.unwrap()` panics and the completion sender is dropped (modelled as
none) — instead of sending a typed failure value; the catch-up sweep's
compute closure for the very same fault surfaces it as a typed error
value. -/
theorem index_collab_compute_closure_panics_on_pool_error :
    failEmbedIndexer.embed_in_thread_pool [chunkA] = Except.error (AppError.external 1) ∧
    index_collab_compute failEmbedIndexer [chunkA] = none ∧
    index_unindexd_compute envA failEmbedIndexer ucA = Except.error (AppError.external 1) :=
  ⟨rfl, rfl, rfl⟩

/-- C4 counterexample: submitting a document of an unregistered type
(Folder) through the synchronous session path is not a silent no-op:
`index_collab` returns a missing-indexer error to the caller. -/
theorem index_collab_errors_on_unsupported_type :
    provA.indexer_for CollabType.Folder = none ∧
    index_collab envA provA 0 4 9 CollabType.Folder =
      ⟨Except.error (AppError.noIndexerFound CollabType.Folder), []⟩ :=
  ⟨rfl, rfl⟩

/-- C4 amended: for a document type with no registered indexer, the
fire-and-forget single, batch and catch-up-sweep paths are silent
no-ops (success, no persistence call), while the synchronous session
path returns a missing-indexer error without persisting. -/
theorem unsupported_type_behavior (env : Env) (prov : IndexerProvider)
    (w : RawWorkspaceId) (u : Uuid) (ic : IndexedCollab) (uc : UnindexedCollab)
    (oid : ObjectId) (collab : Collab) (pool_fault : Bool)
    (hp : env.parse_uuid w = some u)
    (h1 : prov.indexer_for ic.collab_type = none)
    (h2 : prov.indexer_for uc.collab_type = none) :
    index_encoded_collab_one env prov w ic = ⟨Except.ok (), []⟩ ∧
    index_encoded_collabs env pool_fault prov w [ic] = ⟨Except.ok (), []⟩ ∧
    index_unindexd_collab env prov uc = ⟨Except.ok (), []⟩ ∧
    index_collab env prov w oid collab uc.collab_type =
      ⟨Except.error (AppError.noIndexerFound uc.collab_type), []⟩ := by
  have hproc : process_collab env prov ic = none := by
    unfold process_collab
    simp only [h1]
  refine ⟨?_, ?_, ?_, ?_⟩
  · unfold index_encoded_collab_one
    simp only [hp, hproc]
  · unfold index_encoded_collabs
    simp only [hp]
    cases pool_fault <;> simp [hproc]
  · unfold index_unindexd_collab
    simp only [h2]
  · unfold index_collab
    simp only [hp, h2]

/-- Witness for C4's amended theorem at a concrete Folder-typed document. -/
theorem unsupported_type_behavior_witness :
    index_encoded_collab_one envA provA 0 icFolder = ⟨Except.ok (), []⟩ ∧
    index_encoded_collabs envA false provA 0 [icFolder] = ⟨Except.ok (), []⟩ ∧
    index_unindexd_collab envA provA ucFolder = ⟨Except.ok (), []⟩ ∧
    index_collab envA provA 0 4 9 ucFolder.collab_type =
      ⟨Except.error (AppError.noIndexerFound ucFolder.collab_type), []⟩ :=
  unsupported_type_behavior envA provA 0 0 icFolder ucFolder 4 9 false rfl rfl rfl

/-- The sweep's per-document step returns success exactly when its
persistence call did not fail (in particular it returns success on a
missing indexer, a computed failure or an absent outcome). -/
theorem index_unindexd_collab_ok_iff (env : Env) (prov : IndexerProvider)
    (d : UnindexedCollab) :
    (index_unindexd_collab env prov d).result = Except.ok () ↔
      sweep_persist_failed env prov d = false := by
  unfold index_unindexd_collab sweep_persist_failed
  cases hix : prov.indexer_for d.collab_type with
  | none => simp
  | some ix =>
    cases hcc : index_unindexd_compute env ix d with
    | error e => simp [hcc]
    | ok o =>
      cases o with
      | none => simp [hcc]
      | some e =>
        cases hup : env.upsert_collab_embeddings d.workspace_id d.object_id
            e.tokens_consumed e.params with
        | ok v => simp [hcc, hup]
        | error e2 => simp [hcc, hup]

/-- C3 counterexample: the catch-up sweep drains one Document whose
embedding computation fails (so the per-job pipeline does not succeed
and nothing is persisted), yet the summary count reports 1 successfully
indexed document instead of 0. -/
theorem sweep_count_includes_failed_compute :
    index_unindexd_compute envA failEmbedIndexer ucA = Except.error (AppError.external 1) ∧
    handle_unindexed_collabs envA provFail (Except.ok [cidA]) = (1, []) :=
  ⟨rfl, rfl⟩

/-- C3 amended: the sweep's summary count equals the number of
stream-yielded documents whose per-document step returned success,
which excludes only documents whose persistence call failed; a document
whose compute step failed is still counted, since the per-document step
logs the failure and returns success. -/
theorem sweep_count_characterization (env : Env) (prov : IndexerProvider)
    (items : List (Except AppError UnindexedCollab))
    (c : UnindexedCollab) (ix : Indexer) (err : AppError)
    (hix : prov.indexer_for c.collab_type = some ix)
    (hfail : index_unindexd_compute env ix c = Except.error err) :
    (sweep_items env prov items).1 =
      items.countP (fun it => match it with
        | Except.ok d => !(sweep_persist_failed env prov d)
        | Except.error _ => false) ∧
    (index_unindexd_collab env prov c).result = Except.ok () := by
  constructor
  · induction items with
    | nil => simp [sweep_items]
    | cons it rest ih =>
      cases it with
      | error e =>
        simp only [sweep_items, List.countP_cons]
        simp [ih]
      | ok d =>
        simp only [sweep_items, List.countP_cons]
        cases hr : (index_unindexd_collab env prov d).result with
        | ok v =>
          have hpf : sweep_persist_failed env prov d = false := by
            cases v
            exact (index_unindexd_collab_ok_iff env prov d).mp hr
          simp [hpf, ih]
        | error e =>
          have hpf : sweep_persist_failed env prov d = true := by
            cases hb : sweep_persist_failed env prov d with
            | true => rfl
            | false =>
              have := (index_unindexd_collab_ok_iff env prov d).mpr hb
              rw [hr] at this
              exact Except.noConfusion this
          simp [hpf, ih]
  · unfold index_unindexd_collab
    simp only [hix, hfail]

/-- Witness for C3's amended theorem on a one-item stream whose single
document has a failing compute step: it is counted even though its
pipeline failed. -/
theorem sweep_count_characterization_witness :
    (sweep_items envA provFail [Except.ok ucA]).1 =
      ([Except.ok ucA] : List (Except AppError UnindexedCollab)).countP (fun it => match it with
        | Except.ok d => !(sweep_persist_failed envA provFail d)
        | Except.error _ => false) ∧
    (index_unindexd_collab envA provFail ucA).result = Except.ok () :=
  sweep_count_characterization envA provFail [Except.ok ucA] ucA failEmbedIndexer
    (AppError.external 1) rfl rfl

/-- When the shared pipeline yields an outcome, the outcome's content
list is non-empty, provided every registered indexer satisfies the
spec's embedding contract. -/
theorem process_collab_some_nonempty (env : Env) (prov : IndexerProvider)
    (ic : IndexedCollab) (tk : Nat) (c : List AFCollabEmbeddedContent)
    (hall : ∀ t ix, prov.indexer_for t = some ix → ix.spec_embed_contract)
    (h : process_collab env prov ic = some (tk, c)) : c ≠ [] := by
  unfold process_collab at h
  cases hix : prov.indexer_for ic.collab_type with
  | none => simp [hix] at h
  | some ix =>
    simp only [hix] at h
    cases hd : env.decode_from_bytes ic.encoded_collab with
    | none => simp [hd] at h
    | some ec =>
      simp only [hd] at h
      cases hn : env.new_with_source ic.object_id ec.doc_state with
      | none => simp [hn] at h
      | some collab =>
        simp only [hn] at h
        cases hcr : ix.create_embedded_content collab with
        | error e => simp [hcr] at h
        | ok params =>
          simp only [hcr] at h
          cases hem : ix.embed params with
          | error e => simp [hem] at h
          | ok o =>
            cases o with
            | none => simp [hem] at h
            | some e =>
              simp only [hem, Option.some.injEq, Prod.mk.injEq] at h
              have hp2 : e.params = c := h.2
              have hne := (hall _ _ hix).1 params e hem
              rw [hp2] at hne
              exact hne

/-- A successful value on the synchronous compute channel comes from a
successful, present embedding outcome. -/
theorem index_collab_compute_ok_inv (ix : Indexer) (cs : List AFCollabEmbeddedContent)
    (e : AFCollabEmbeddings) (h : index_collab_compute ix cs = some (Except.ok e)) :
    ix.embed_in_thread_pool cs = Except.ok (some e) := by
  unfold index_collab_compute at h
  cases hm : ix.embed_in_thread_pool cs with
  | error e2 => simp [hm] at h
  | ok o =>
    cases o with
    | none => simp [hm] at h
    | some e2 =>
      simp only [hm, Option.some.injEq, Except.ok.injEq] at h
      subst h
      rfl

/-- A present outcome from the sweep's compute closure comes from a
successful pool-confined embedding of the extracted content. -/
theorem index_unindexd_compute_ok_inv (env : Env) (ix : Indexer) (uc : UnindexedCollab)
    (e : AFCollabEmbeddings) (h : index_unindexd_compute env ix uc = Except.ok (some e)) :
    ∃ collab params, env.new_with_source uc.object_id uc.collab.doc_state = some collab ∧
      ix.create_embedded_content collab = Except.ok params ∧
      ix.embed_in_thread_pool params = Except.ok (some e) := by
  unfold index_unindexd_compute at h
  cases hn : env.new_with_source uc.object_id uc.collab.doc_state with
  | none => simp [hn] at h
  | some collab =>
    simp only [hn] at h
    cases hcr : ix.create_embedded_content collab with
    | error e2 => simp [hcr] at h
    | ok params =>
      simp only [hcr] at h
      exact ⟨collab, params, rfl, hcr, h⟩

/-- C7: assuming every registered indexer satisfies the spec's embedding
contract, every persistence call attempted by any entry point carries at
least one content chunk; moreover, a document whose extracted content is
empty triggers no persistence call and raises no error (shown on the
synchronous path and on the shared pipeline of the encoded paths). -/
theorem upsert_requires_nonempty_content (env : Env) (prov : IndexerProvider)
    (hall : ∀ t ix, prov.indexer_for t = some ix → ix.spec_embed_contract) :
    (∀ w ic x, x ∈ (index_encoded_collab_one env prov w ic).upserts → x.contents ≠ []) ∧
    (∀ pf w l x, x ∈ (index_encoded_collabs env pf prov w l).upserts → x.contents ≠ []) ∧
    (∀ w oid collab t x, x ∈ (index_collab env prov w oid collab t).upserts →
      x.contents ≠ []) ∧
    (∀ uc x, x ∈ (index_unindexd_collab env prov uc).upserts → x.contents ≠ []) ∧
    (∀ w u oid collab t ix, env.parse_uuid w = some u → prov.indexer_for t = some ix →
      ix.create_embedded_content collab = Except.ok [] →
      index_collab env prov w oid collab t = ⟨Except.ok (), []⟩) ∧
    (∀ ic ix ec collab, prov.indexer_for ic.collab_type = some ix →
      env.decode_from_bytes ic.encoded_collab = some ec →
      env.new_with_source ic.object_id ec.doc_state = some collab →
      ix.create_embedded_content collab = Except.ok [] →
      process_collab env prov ic = none) := by
  refine ⟨?_, ?_, ?_, ?_, ?_, ?_⟩
  · intro w ic x hx
    unfold index_encoded_collab_one at hx
    cases hp : env.parse_uuid w with
    | none => simp [hp] at hx
    | some u =>
      simp only [hp] at hx
      cases hpc : process_collab env prov ic with
      | none => simp [hpc] at hx
      | some p =>
        simp only [hpc, List.mem_singleton] at hx
        have := process_collab_some_nonempty env prov ic p.1 p.2 hall hpc
        rw [hx]
        exact this
  · intro pf w l x hx
    unfold index_encoded_collabs at hx
    cases hp : env.parse_uuid w with
    | none => simp [hp] at hx
    | some u =>
      simp only [hp] at hx
      cases pf with
      | true => simp at hx
      | false =>
        simp only [if_neg Bool.false_ne_true, List.mem_filterMap] at hx
        obtain ⟨p, hpmem, hg⟩ := hx
        cases hc : p.2 with
        | nil => rw [hc] at hg; exact Option.noConfusion hg
        | cons c cs =>
          rw [hc] at hg
          simp only [Option.some.injEq] at hg
          rw [← hg]
          simp
  · intro w oid collab t x hx
    unfold index_collab at hx
    cases hp : env.parse_uuid w with
    | none => simp [hp] at hx
    | some u =>
      simp only [hp] at hx
      cases hix : prov.indexer_for t with
      | none => simp [hix] at hx
      | some ix =>
        simp only [hix] at hx
        cases hcr : ix.create_embedded_content collab with
        | error e => simp [hcr] at hx
        | ok contents =>
          simp only [hcr] at hx
          cases hcc : index_collab_compute ix contents with
          | none => simp [hcc] at hx
          | some r =>
            cases r with
            | error e => simp [hcc] at hx
            | ok e =>
              have hemb := index_collab_compute_ok_inv ix contents e hcc
              have hne := (hall _ _ hix).2.1 contents e hemb
              cases hup : env.upsert_collab_embeddings u oid e.tokens_consumed e.params with
              | ok v =>
                simp only [hcc, hup, List.mem_singleton] at hx
                rw [hx]
                exact hne
              | error e2 =>
                simp only [hcc, hup, List.mem_singleton] at hx
                rw [hx]
                exact hne
  · intro uc x hx
    unfold index_unindexd_collab at hx
    cases hix : prov.indexer_for uc.collab_type with
    | none => simp [hix] at hx
    | some ix =>
      simp only [hix] at hx
      cases hcc : index_unindexd_compute env ix uc with
      | error e => simp [hcc] at hx
      | ok o =>
        cases o with
        | none => simp [hcc] at hx
        | some e =>
          obtain ⟨collab, params, hn, hcr, hemb⟩ :=
            index_unindexd_compute_ok_inv env ix uc e hcc
          have hne := (hall _ _ hix).2.1 params e hemb
          cases hup : env.upsert_collab_embeddings uc.workspace_id uc.object_id
              e.tokens_consumed e.params with
          | ok v =>
            simp only [hcc, hup, List.mem_singleton] at hx
            rw [hx]
            exact hne
          | error e2 =>
            simp only [hcc, hup, List.mem_singleton] at hx
            rw [hx]
            exact hne
  · intro w u oid collab t ix hp hix hcr
    have hcontract := hall _ _ hix
    have h0 : index_collab_compute ix [] = some (Except.error AppError.embedFailedNone) := by
      unfold index_collab_compute
      rw [hcontract.2.2.2]
    unfold index_collab
    simp only [hp, hix, hcr, h0]
  · intro ic ix ec collab hix hd hn hcr
    have hcontract := hall _ _ hix
    unfold process_collab
    simp only [hix, hd, hn, hcr, hcontract.2.2.1]

/-- Witness for C7 at a concrete document whose extracted content is
empty: the synchronous path persists nothing and returns success. -/
theorem upsert_requires_nonempty_content_witness :
    index_collab envA provEmpty 0 3 9 CollabType.Document = ⟨Except.ok (), []⟩ :=
  (upsert_requires_nonempty_content envA provEmpty provEmpty_contract).2.2.2.2.1 0 0 3 9
    CollabType.Document emptyContentIndexer rfl rfl rfl

/-- The stream generator yields only Document records and fetches
encoded state only for Document records. -/
theorem gen_unindexed_only_documents (fetch : CollabId → Except AppError EncodedCollab)
    (l : List CollabId) :
    (∀ uc, Except.ok uc ∈ (gen_unindexed fetch l).1 →
      uc.collab_type = CollabType.Document) ∧
    (∀ cid, cid ∈ (gen_unindexed fetch l).2 → cid.collab_type = CollabType.Document) := by
  induction l with
  | nil => simp [gen_unindexed]
  | cons cid rest ih =>
    obtain ⟨cw, co, ct⟩ := cid
    cases ct with
    | Document =>
      cases hf : fetch ⟨cw, co, CollabType.Document⟩ with
      | error e =>
        refine ⟨?_, ?_⟩
        · intro uc huc
          simp [gen_unindexed, hf] at huc
        · intro c hc
          simp [gen_unindexed, hf] at hc
          rw [hc]
      | ok ec =>
        refine ⟨?_, ?_⟩
        · intro uc huc
          simp only [gen_unindexed, hf, List.mem_cons] at huc
          cases huc with
          | inl heq =>
            have : uc = ⟨cw, co, CollabType.Document, ec⟩ := by
              injection heq.symm with h2
              exact h2.symm
            rw [this]
          | inr hmem => exact ih.1 uc hmem
        · intro c hc
          simp only [gen_unindexed, hf, List.mem_cons] at hc
          cases hc with
          | inl heq => rw [heq]
          | inr hmem => exact ih.2 c hmem
    | Database => simpa [gen_unindexed] using ih
    | WorkspaceDatabase => simpa [gen_unindexed] using ih
    | Folder => simpa [gen_unindexed] using ih
    | DatabaseRow => simpa [gen_unindexed] using ih
    | UserAwareness => simpa [gen_unindexed] using ih
    | Unknown => simpa [gen_unindexed] using ih

/-- C8: the catch-up stream yields only records of the Document type,
and the encoded state of a record of any other type is never fetched
(the fetch trace contains only Document records), so no other type ever
reaches decode or compute. -/
theorem sweep_stream_only_documents (env : Env) (dbr : Except AppError (List CollabId)) :
    (∀ uc, Except.ok uc ∈ (get_unindexed_collabs env dbr).1 →
      uc.collab_type = CollabType.Document) ∧
    (∀ cid, cid ∈ (get_unindexed_collabs env dbr).2 →
      cid.collab_type = CollabType.Document) := by
  cases dbr with
  | error e =>
    refine ⟨?_, ?_⟩
    · intro uc huc
      simp [get_unindexed_collabs] at huc
    · intro c hc
      simp [get_unindexed_collabs] at hc
  | ok collabs => exact gen_unindexed_only_documents env.get_encode_collab collabs

/-- Witness for C8 on a mixed backlog (one Document, one Folder): the
fetch trace contains the Document record, whose type the theorem then
reports as Document. -/
theorem sweep_stream_only_documents_witness :
    cidA.collab_type = CollabType.Document :=
  (sweep_stream_only_documents envA (Except.ok [cidA, cidFolder])).2 cidA (by decide)

/-- The sweep's drain loop is unchanged when the settings query is
replaced, item by item. -/
theorem sweep_items_settings_swap (env : Env)
    (s1 s2 : Uuid → Except AppError (Option AFWorkspaceSettings))
    (prov : IndexerProvider) (items : List (Except AppError UnindexedCollab)) :
    sweep_items { env with select_workspace_settings := s1 } prov items =
      sweep_items { env with select_workspace_settings := s2 } prov items := by
  induction items with
  | nil => rfl
  | cons it rest ih =>
    have hone : ∀ d, index_unindexd_collab { env with select_workspace_settings := s1 } prov d =
        index_unindexd_collab { env with select_workspace_settings := s2 } prov d :=
      fun _ => rfl
    cases it with
    | ok d => simp only [sweep_items, ih, hone]
    | error e => simp only [sweep_items, ih]

/-- C9: no indexing entry point reads the per-workspace settings store.
Replacing the settings query by any other one leaves the result and the
full persistence trace of every entry point (single, batch, synchronous
session, catch-up sweep) unchanged; only the separate
`can_index_workspace` query consults it. -/
theorem entry_points_independent_of_settings (env : Env)
    (s1 s2 : Uuid → Except AppError (Option AFWorkspaceSettings))
    (prov : IndexerProvider) (w : RawWorkspaceId) (ic : IndexedCollab)
    (pf : Bool) (l : List IndexedCollab) (oid : ObjectId) (collab : Collab)
    (t : CollabType) (dbr : Except AppError (List CollabId)) :
    index_encoded_collab_one { env with select_workspace_settings := s1 } prov w ic =
      index_encoded_collab_one { env with select_workspace_settings := s2 } prov w ic ∧
    index_encoded_collabs { env with select_workspace_settings := s1 } pf prov w l =
      index_encoded_collabs { env with select_workspace_settings := s2 } pf prov w l ∧
    index_collab { env with select_workspace_settings := s1 } prov w oid collab t =
      index_collab { env with select_workspace_settings := s2 } prov w oid collab t ∧
    handle_unindexed_collabs { env with select_workspace_settings := s1 } prov dbr =
      handle_unindexed_collabs { env with select_workspace_settings := s2 } prov dbr := by
  refine ⟨rfl, rfl, rfl, ?_⟩
  unfold handle_unindexed_collabs
  have hstream : get_unindexed_collabs { env with select_workspace_settings := s1 } dbr =
      get_unindexed_collabs { env with select_workspace_settings := s2 } dbr := rfl
  rw [hstream]
  exact sweep_items_settings_swap env s1 s2 prov _

/-- C10: in the batched entry point every attempted upsert is keyed by
the object id of the first chunk of its (necessarily non-empty) content
list — not by the submitted document's own identifier. -/
theorem batch_upsert_key_is_first_chunk (env : Env) (pf : Bool) (prov : IndexerProvider)
    (w : RawWorkspaceId) (l : List IndexedCollab) (x : UpsertCall)
    (hx : x ∈ (index_encoded_collabs env pf prov w l).upserts) :
    ∃ c cs, x.contents = c :: cs ∧ x.object_id = c.object_id := by
  unfold index_encoded_collabs at hx
  cases hp : env.parse_uuid w with
  | none => simp [hp] at hx
  | some u =>
    simp only [hp] at hx
    cases pf with
    | true => simp at hx
    | false =>
      simp only [if_neg Bool.false_ne_true, List.mem_filterMap] at hx
      obtain ⟨p, hpmem, hg⟩ := hx
      cases hc : p.2 with
      | nil => rw [hc] at hg; exact Option.noConfusion hg
      | cons c cs =>
        rw [hc] at hg
        simp only [Option.some.injEq] at hg
        exact ⟨c, cs, by rw [← hg], by rw [← hg]⟩

/-- Witness for C10: the batch submits a document with object id 3 whose
single computed chunk carries object id 7; the attempted upsert is keyed
by 7, the first chunk's object id. -/
theorem batch_upsert_key_is_first_chunk_witness :
    ∃ c cs, (UpsertCall.mk 0 7 5 [chunkA]).contents = c :: cs ∧
      (UpsertCall.mk 0 7 5 [chunkA]).object_id = c.object_id :=
  batch_upsert_key_is_first_chunk envA false provA 0 [icA] ⟨0, 7, 5, [chunkA]⟩ (by decide)

end AppFlowyIndexer
